import Mathlib

/-
Verification of the authentication subsystem of the travel-booking
application: a shallow embedding of the password policy
(back-end/util/password.validator.ts), the token utilities
(token.generator.ts), the account model (back-end/model/user.ts), the
persistence-layer field updates (user.db.ts), the service-level flows
(back-end/service/user.service.ts) and the logout/blacklist middleware
(app.ts + user.routes.ts), together with theorems about the claims of
the specification.

Conventions used throughout the embedding:
- JS strings are `List Char`; `charCodeAt` is `Char.toNat` (all inputs of
  interest are ASCII, where UTF-16 code units and code points agree).
- `Date` values are `Nat` milliseconds since the epoch; `getExpirationTime m`
  of the source is `now + m * 60000`.
- The bcrypt collaborator is an abstract pair of parameters
  `hashF : List Char → List Char` (bcrypt.hash) and
  `verifyF : List Char → List Char → Bool` (bcrypt.compare), as in the
  spec's external-interface contract for the hashing primitive.
- A service call on an account is a pure function from the loaded account
  (the database row the source's lookup returned) and the call arguments to
  the pair (updated account, thrown-error-or-result); database writes that
  the source performs before throwing are visible in the returned account.
-/

namespace TravelAuth

/-! ## Credential policy: back-end/util/password.validator.ts -/

/-- Lower bound of `PasswordValidator.minLength`. -/
def minLength : Nat := 12

/-- Upper bound of `PasswordValidator.maxLength`. -/
def maxLength : Nat := 128

/-- Test of the regex `[A-Z]` on a single character. -/
def isUpperChar (c : Char) : Bool := 'A' ≤ c && c ≤ 'Z'

/-- Test of the regex `[a-z]` on a single character. -/
def isLowerChar (c : Char) : Bool := 'a' ≤ c && c ≤ 'z'

/-- Test of the regex `\d` on a single character. -/
def isDigitChar (c : Char) : Bool := '0' ≤ c && c ≤ '9'

/-- The fixed special-character set of the validator's regex
`[!@#$%^&*()_+\-=\[\]{};':"\\|,.<>\/?]`, in source order.  The quote,
backslash and brace characters are written via `Char.ofNat`. -/
def specialChars : List Char :=
  ['!', '@', '#', '$', '%', '^', '&', '*', '(', ')', '_', '+', '-', '=',
   '[', ']', Char.ofNat 123, Char.ofNat 125, ';', Char.ofNat 39, ':',
   Char.ofNat 34, Char.ofNat 92, '|', ',', '.', '<', '>', '/', '?']

/-- Membership in the validator's special-character class. -/
def isSpecialChar (c : Char) : Bool := specialChars.contains c

/-- ASCII fragment of JS `String.prototype.toLowerCase` on one character. -/
def toLowerChar (c : Char) : Char :=
  if 'A' ≤ c && c ≤ 'Z' then Char.ofNat (c.toNat + 32) else c

/-- JS `toLowerCase` over a whole string. -/
def toLowerList (s : List Char) : List Char := s.map toLowerChar

/-- JS `String.prototype.includes`: `containsSub sub l` is true iff `sub`
occurs as a contiguous substring of `l`. -/
def containsSub (sub : List Char) : List Char → Bool
  | [] => sub.isEmpty
  | c :: rest => sub.isPrefixOf (c :: rest) || containsSub sub rest

/-- The `commonPasswords` denylist of `isCommonPassword`, in source order. -/
def commonPasswords : List (List Char) :=
  ["password".toList, "password123".toList, "123456".toList,
   "12345678".toList, "qwerty".toList, "abc123".toList, "monkey".toList,
   "1234567".toList, "letmein".toList, "trustno1".toList, "dragon".toList,
   "baseball".toList, "111111".toList, "iloveyou".toList, "master".toList,
   "sunshine".toList, "ashley".toList, "bailey".toList, "passw0rd".toList,
   "shadow".toList]

/-- `PasswordValidator.isCommonPassword`: the lowercased password contains
some denylist entry as a substring. -/
def isCommonPassword (password : List Char) : Bool :=
  commonPasswords.any (fun common => containsSub common (toLowerList password))

/-- One step of the sequential-character test: JS
`Math.abs(current - previous) === 1` on two character codes. -/
def absOne (a b : Char) : Bool :=
  decide (a.toNat + 1 = b.toNat ∨ b.toNat + 1 = a.toNat)

/-- The `for` loop of `PasswordValidator.hasSequentialCharacters`: `prev` is
`password.charCodeAt(i - 1)`, `count` is `sequentialCount`, and the list is
the remaining characters from position `i` on. -/
def seqLoop : Char → Nat → List Char → Bool
  | _, _, [] => false
  | prev, count, c :: rest =>
    if absOne prev c then
      if count + 1 ≥ 4 then true else seqLoop c (count + 1) rest
    else
      seqLoop c 1 rest

/-- `PasswordValidator.hasSequentialCharacters`: scans adjacent character
pairs, counting consecutive pairs whose codes differ by exactly 1 (in either
direction), and reports true as soon as the run length reaches 4. -/
def hasSequentialCharacters : List Char → Bool
  | [] => false
  | c :: rest => seqLoop c 1 rest

/-- Violation messages of `PasswordValidator.validate`, verbatim. -/
def errRequired : String := "Password is required"

/-- Minimum-length violation message (with `minLength` = 12 substituted). -/
def errMinLength : String := "Password must be at least 12 characters long"

/-- Maximum-length violation message (with `maxLength` = 128 substituted). -/
def errMaxLength : String := "Password must not exceed 128 characters"

/-- Missing-uppercase violation message. -/
def errUppercase : String := "Password must contain at least one uppercase letter"

/-- Missing-lowercase violation message. -/
def errLowercase : String := "Password must contain at least one lowercase letter"

/-- Missing-digit violation message. -/
def errNumber : String := "Password must contain at least one number"

/-- Missing-special-character violation message. -/
def errSpecial : String := "Password must contain at least one special character (!@#$%^&*)"

/-- Denylist violation message. -/
def errCommon : String := "Password is too common or predictable"

/-- Sequential-characters violation message. -/
def errSequential : String := "Password contains too many sequential characters"

/-- Result record of `PasswordValidator.validate`. -/
structure PasswordValidationResult where
  isValid : Bool
  errors : List String
deriving DecidableEq, Repr

/-- `PasswordValidator.validate`: the empty password short-circuits with the
single violation `errRequired`; otherwise the violations are accumulated in
source order and the password is valid iff none was recorded. -/
def validate (password : List Char) : PasswordValidationResult :=
  if password.isEmpty then ⟨false, [errRequired]⟩
  else
    let errors : List String :=
      (if password.length < minLength then [errMinLength] else []) ++
      (if password.length > maxLength then [errMaxLength] else []) ++
      (if password.any isUpperChar then [] else [errUppercase]) ++
      (if password.any isLowerChar then [] else [errLowercase]) ++
      (if password.any isDigitChar then [] else [errNumber]) ++
      (if password.any isSpecialChar then [] else [errSpecial]) ++
      (if isCommonPassword password then [errCommon] else []) ++
      (if hasSequentialCharacters password then [errSequential] else [])
    ⟨errors.isEmpty, errors⟩

/-- JS `email.split('@')[0]`: the characters before the first `@` (the whole
string when there is no `@`). -/
def localPart (email : List Char) : List Char :=
  email.takeWhile (fun c => c ≠ '@')

/-- `PasswordValidator.isPasswordContainsEmail`: the lowercased password
contains the lowercased local part of the email. -/
def isPasswordContainsEmail (password email : List Char) : Bool :=
  containsSub (toLowerList (localPart email)) (toLowerList password)

/-! ## Token utilities: back-end/util/token.generator.ts -/

/-- `TokenGenerator.isTokenExpired`: an absent expiry timestamp is expired
(JS `!expirationTime`), a present one is expired iff it is strictly in the
past (`new Date() > new Date(expirationTime)`). -/
def isTokenExpired (expirationTime : Option Nat) (now : Nat) : Bool :=
  match expirationTime with
  | none => true
  | some t => decide (now > t)

/-! ## Account model: back-end/model/user.ts -/

/-- The persisted `User` aggregate (the fields the authentication flows
read and write; timestamps managed by the ORM are omitted). -/
structure UserAcc where
  id : Nat
  firstName : String
  lastName : String
  email : List Char
  password : List Char
  isOrganiser : Bool
  emailVerified : Bool
  emailVerificationToken : Option (List Char)
  emailVerificationTokenExp : Option Nat
  passwordResetToken : Option (List Char)
  passwordResetTokenExp : Option Nat
  failedLoginAttempts : Nat
  lockedUntil : Option Nat
  mfaEnabled : Bool
  mfaCode : Option (List Char)
  mfaCodeExp : Option Nat
deriving DecidableEq, Repr

/-- `User.isAccountLocked`: locked iff `lockedUntil` is set and strictly in
the future (`new Date() < this.lockedUntil`). -/
def isAccountLocked (u : UserAcc) (now : Nat) : Bool :=
  match u.lockedUntil with
  | none => false
  | some t => decide (now < t)

/-! ## Persistence-layer field updates: back-end/repository/user.db.ts -/

/-- `userDB.updatePassword`: stores the re-hashed password and, in the same
update, clears the reset token/expiry and the lockout counter/timestamp.
Note that the MFA code fields are not touched by this update. -/
def dbUpdatePassword (hashF : List Char → List Char) (u : UserAcc)
    (password : List Char) : UserAcc :=
  { u with
    password := hashF password
    passwordResetToken := none
    passwordResetTokenExp := none
    failedLoginAttempts := 0
    lockedUntil := none }

/-- `userDB.verifyEmail`: marks the email verified and clears the
verification token/expiry. -/
def dbVerifyEmail (u : UserAcc) : UserAcc :=
  { u with
    emailVerified := true
    emailVerificationToken := none
    emailVerificationTokenExp := none }

/-- `userDB.setPasswordResetToken`. -/
def dbSetPasswordResetToken (u : UserAcc) (token : List Char) (expiresAt : Nat) : UserAcc :=
  { u with passwordResetToken := some token, passwordResetTokenExp := some expiresAt }

/-- `userDB.updateFailedLoginAttempts`. -/
def dbUpdateFailedLoginAttempts (u : UserAcc) (attempts : Nat)
    (lockedUntil : Option Nat) : UserAcc :=
  { u with failedLoginAttempts := attempts, lockedUntil := lockedUntil }

/-- `userDB.resetFailedLoginAttempts`. -/
def dbResetFailedLoginAttempts (u : UserAcc) : UserAcc :=
  { u with failedLoginAttempts := 0, lockedUntil := none }

/-- `userDB.setMFACode`. -/
def dbSetMFACode (u : UserAcc) (code : List Char) (expiresAt : Nat) : UserAcc :=
  { u with mfaCode := some code, mfaCodeExp := some expiresAt }

/-- `userDB.clearMFACode`. -/
def dbClearMFACode (u : UserAcc) : UserAcc :=
  { u with mfaCode := none, mfaCodeExp := none }

/-- A row of the `RememberMeToken` table. -/
structure RememberMeRec where
  userId : Nat
  token : String
  expiresAt : Nat
deriving DecidableEq, Repr

/-! ## Service flows: back-end/service/user.service.ts

Each flow takes the account its source-level lookup returned (`Option
UserAcc` when looked up by token, `UserAcc` when the claim's scenario has
the lookup succeed) and returns the updated persisted state together with
`Except.error message` for a thrown `Error(message)` or `Except.ok payload`
for the documented success payload. -/

/-- Claims carried by the session token `generateJwtToken` signs. -/
structure SessionClaims where
  userId : Nat
  email : List Char
  isOrganiser : Bool
deriving DecidableEq, Repr

/-- Outcome of `authenticate`: either the MFA-pending response (empty token,
`requiresMFA: true`) or a full authenticated response with session claims. -/
inductive AuthOutcome where
  | requiresMFA
  | success (claims : SessionClaims)
deriving DecidableEq, Repr

/-- Error message thrown when the email is not verified. -/
def errNotVerified : String :=
  "Please verify your email before logging in. Check your inbox for the verification link."

/-- Lockout message template of `authenticate`, with the computed number of
minutes left interpolated. -/
def accountLockedMsg (minutesLeft : Nat) : String :=
  "Account is locked due to too many failed login attempts. Try again in "
    ++ toString minutesLeft ++ " minutes."

/-- Error thrown on the failure that reaches the lockout threshold. -/
def errTooManyAttempts : String :=
  "Too many failed login attempts. Your account has been locked for 30 minutes."

/-- Error thrown on a failed password comparison below the threshold. -/
def errIncorrectPassword : String := "Incorrect password."

/-- `MAX_ATTEMPTS` of `authenticate`. -/
def maxAttempts : Nat := 5

/-- `LOCKOUT_DURATION_MINUTES` of `authenticate`, in milliseconds. -/
def lockoutDurationMs : Nat := 30 * 60000

/-- JS `Math.ceil((lockedUntil - now) / 60000)` for a lockout strictly in
the future, on millisecond timestamps. -/
def ceilMinutes (deltaMs : Nat) : Nat := (deltaMs + 59999) / 60000

/-- `authenticate` on a loaded account: verified-email check, lock check,
password comparison (via the abstract bcrypt verifier `verifyF`); on failure
the incremented counter (and, at the threshold, the 30-minute lock) is
persisted before the error is thrown; on success the counter is reset and
either the MFA-pending response (persisting a fresh code `genMfa`, expiring
in 10 minutes) or the session claims are returned. -/
def authenticate (verifyF : List Char → List Char → Bool) (genMfa : List Char)
    (now : Nat) (u : UserAcc) (password : List Char) :
    UserAcc × Except String AuthOutcome :=
  if u.emailVerified = false then
    (u, .error errNotVerified)
  else if isAccountLocked u now then
    (u, .error (accountLockedMsg (ceilMinutes (u.lockedUntil.getD 0 - now))))
  else if verifyF password u.password = false then
    let newAttempts := u.failedLoginAttempts + 1
    let lockedUntil : Option Nat :=
      if newAttempts ≥ maxAttempts then some (now + lockoutDurationMs) else none
    let u1 := dbUpdateFailedLoginAttempts u newAttempts lockedUntil
    if newAttempts ≥ maxAttempts then (u1, .error errTooManyAttempts)
    else (u1, .error errIncorrectPassword)
  else
    let u1 := dbResetFailedLoginAttempts u
    if u.mfaEnabled then
      (dbSetMFACode u1 genMfa (now + 10 * 60000), .ok AuthOutcome.requiresMFA)
    else
      (u1, .ok (AuthOutcome.success ⟨u.id, u.email, u.isOrganiser⟩))

/-- MFA error messages of `verifyMFA`, verbatim. -/
def errMfaNotFound : String := "MFA code not found. Please initiate login again."

/-- Expired-code error of `verifyMFA`. -/
def errMfaExpired : String := "MFA code has expired. Please initiate login again."

/-- Mismatched-code error of `verifyMFA` and `verifyChangePassword`. -/
def errMfaInvalid : String := "Invalid MFA code. Please try again."

/-- `verifyMFA` on the account loaded by id: absent code, expiry (clearing
the code), mismatch, and on match clears the code and issues the session. -/
def verifyMFA (now : Nat) (u : UserAcc) (mfaCode : List Char) :
    UserAcc × Except String SessionClaims :=
  match u.mfaCode with
  | none => (u, .error errMfaNotFound)
  | some stored =>
    if isTokenExpired u.mfaCodeExp now then
      (dbClearMFACode u, .error errMfaExpired)
    else if stored ≠ mfaCode then
      (u, .error errMfaInvalid)
    else
      (dbClearMFACode u, .ok ⟨u.id, u.email, u.isOrganiser⟩)

/-- Unknown-token error of `verifyEmail`. -/
def errVerifyInvalidToken : String := "Invalid or expired verification token."

/-- Expired-token error of `verifyEmail`. -/
def errVerifyExpiredToken : String :=
  "Verification token has expired. Please request a new one."

/-- Success message of `verifyEmail`. -/
def msgEmailVerified : String := "Email verified successfully! You can now log in."

/-- `verifyEmail` on the result of the lookup by verification token. -/
def verifyEmailSvc (now : Nat) (found : Option UserAcc) :
    Option UserAcc × Except String String :=
  match found with
  | none => (none, .error errVerifyInvalidToken)
  | some u =>
    if isTokenExpired u.emailVerificationTokenExp now then
      (some u, .error errVerifyExpiredToken)
    else
      (some (dbVerifyEmail u), .ok msgEmailVerified)

/-- Conflict error of `signup` for an already-registered email. -/
def errEmailRegistered : String :=
  "Email already registered. Please use a different email or try logging in."

/-- Contains-email error of `signup`. -/
def errSignupContainsEmail : String := "Password must not contain your email address"

/-- Success message of `signup`. -/
def msgSignupOk : String :=
  "Account created successfully! Please check your email to verify your account."

/-- `signup` given the result of the existing-email lookup: the conflict
check precedes policy validation; policy violations are aggregated with
`errors.join('. ')`; then the contains-email gate; then the account is
created (hashed password, unverified, 24-hour verification token) and the
generic acknowledgement returned. -/
def signup (existing : Option UserAcc) (password email : List Char) :
    Except String String :=
  match existing with
  | some _ => .error errEmailRegistered
  | none =>
    if (validate password).isValid = false then
      .error (String.intercalate ". " (validate password).errors)
    else if isPasswordContainsEmail password email then
      .error errSignupContainsEmail
    else
      .ok msgSignupOk

/-- Success message of `forgotPassword` when the email lookup succeeded. -/
def msgForgotSpecific : String :=
  "Password reset link sent to your email. Please check your inbox."

/-- Generic message of `forgotPassword`'s catch-all branch. -/
def msgForgotGeneric : String :=
  "If an account exists with that email, you will receive a password reset link."

/-- `forgotPassword` given the result of the email lookup: an unknown email
throws inside the try block and the catch returns the generic message; a
known email stores a fresh 1-hour reset token and returns the specific
success message. -/
def forgotPassword (resetTok : List Char) (now : Nat) (found : Option UserAcc) :
    Option UserAcc × String :=
  match found with
  | none => (none, msgForgotGeneric)
  | some u => (some (dbSetPasswordResetToken u resetTok (now + 60 * 60000)), msgForgotSpecific)

/-- Unknown-token error of `resetPassword`. -/
def errResetInvalidToken : String := "Invalid or expired password reset token."

/-- Expired-token error of `resetPassword`. -/
def errResetExpiredToken : String :=
  "Password reset token has expired. Please request a new one."

/-- Contains-email error of `resetPassword` and `changePassword`. -/
def errNewPwContainsEmail : String := "New password must not contain your email address"

/-- Success message of `resetPassword`. -/
def msgResetOk : String :=
  "Password reset successfully. You can now log in with your new password."

/-- `resetPassword` given the result of the lookup by reset token: expiry
check, policy validation, contains-email gate, then `userDB.updatePassword`
(which also clears the reset token and the lockout state). -/
def resetPassword (hashF : List Char → List Char) (now : Nat)
    (found : Option UserAcc) (newPassword : List Char) :
    Option UserAcc × Except String String :=
  match found with
  | none => (none, .error errResetInvalidToken)
  | some u =>
    if isTokenExpired u.passwordResetTokenExp now then
      (some u, .error errResetExpiredToken)
    else if (validate newPassword).isValid = false then
      (some u, .error (String.intercalate ". " (validate newPassword).errors))
    else if isPasswordContainsEmail newPassword u.email then
      (some u, .error errNewPwContainsEmail)
    else
      (some (dbUpdatePassword hashF u newPassword), .ok msgResetOk)

/-- Wrong-current-password error of `changePassword`. -/
def errCurrentPwIncorrect : String := "Current password is incorrect."

/-- Must-differ error of `changePassword`. -/
def errSamePassword : String := "New password must be different from current password."

/-- Success message of `changePassword` (MFA initiated). -/
def msgChangeMfaSent : String :=
  "MFA code sent to your email. Please verify to complete password change."

/-- `changePassword` on the account loaded by id: current-password check,
policy validation, contains-email gate, must-differ check, then a fresh MFA
code (10-minute expiry) is stored and the caller is told to verify. -/
def changePassword (verifyF : List Char → List Char → Bool) (genMfa : List Char)
    (now : Nat) (u : UserAcc) (currentPassword newPassword : List Char) :
    UserAcc × Except String String :=
  if verifyF currentPassword u.password = false then
    (u, .error errCurrentPwIncorrect)
  else if (validate newPassword).isValid = false then
    (u, .error (String.intercalate ". " (validate newPassword).errors))
  else if isPasswordContainsEmail newPassword u.email then
    (u, .error errNewPwContainsEmail)
  else if verifyF newPassword u.password then
    (u, .error errSamePassword)
  else
    (dbSetMFACode u genMfa (now + 10 * 60000), .ok msgChangeMfaSent)

/-- Absent-code error of `verifyChangePassword`. -/
def errChangeMfaNotFound : String :=
  "MFA code not found. Please initiate password change again."

/-- Expired-code error of `verifyChangePassword`. -/
def errChangeMfaExpired : String :=
  "MFA code has expired. Please initiate password change again."

/-- Success message of `verifyChangePassword`. -/
def msgPasswordChanged : String := "Password changed successfully."

/-- `verifyChangePassword` on the account loaded by id: absent code,
expiry (clearing the code), mismatch, policy validation of the supplied
`newPassword`, then `userDB.updatePassword` and the success message.  The
only write on the success path is `userDB.updatePassword`, which does not
touch the MFA code fields. -/
def verifyChangePassword (hashF : List Char → List Char) (now : Nat)
    (u : UserAcc) (mfaCode newPassword : List Char) :
    UserAcc × Except String String :=
  match u.mfaCode with
  | none => (u, .error errChangeMfaNotFound)
  | some stored =>
    if isTokenExpired u.mfaCodeExp now then
      (dbClearMFACode u, .error errChangeMfaExpired)
    else if stored ≠ mfaCode then
      (u, .error errMfaInvalid)
    else if (validate newPassword).isValid = false then
      (u, .error (String.intercalate ". " (validate newPassword).errors))
    else
      (dbUpdatePassword hashF u newPassword, .ok msgPasswordChanged)

/-- Unknown-token error of `verifyRememberMeToken`. -/
def errInvalidRememberMe : String := "Invalid remember me token."

/-- Expired-token error of `verifyRememberMeToken`. -/
def errRememberMeExpired : String := "Remember me token has expired."

/-- Missing-user error of `getUserById`. -/
def userNotFoundMsg (id : Nat) : String :=
  "User with id: " ++ toString id ++ " does not exist."

/-- `verifyRememberMeToken` over the `RememberMeToken` table: unknown token
errors; an expired token is deleted as a side effect and errors; otherwise
the owning account is loaded (via the abstract `users` lookup) and a fresh
session is issued. -/
def verifyRememberMeTokenSvc (now : Nat) (recs : List RememberMeRec)
    (users : Nat → Option UserAcc) (token : String) :
    List RememberMeRec × Except String SessionClaims :=
  match recs.find? (fun r => r.token == token) with
  | none => (recs, .error errInvalidRememberMe)
  | some r =>
    if now > r.expiresAt then
      (recs.filter (fun x => x.token ≠ token), .error errRememberMeExpired)
    else
      match users r.userId with
      | none => (recs, .error (userNotFoundMsg r.userId))
      | some u => (recs, .ok ⟨u.id, u.email, u.isOrganiser⟩)

/-! ## Logout and the revocation registry: app.ts and user.routes.ts -/

/-- Process-wide server state crossed by the middleware chain: the
`tokenBlacklist` set (modelled as a duplicate-free insertion list) and the
`RememberMeToken` table. -/
structure ServerState where
  tokenBlacklist : List String
  rememberMeTokens : List RememberMeRec
deriving DecidableEq, Repr

/-- `tokenBlacklist.add`: idempotent set insert. -/
def revoke (bl : List String) (tok : String) : List String :=
  if bl.contains tok then bl else tok :: bl

/-- An inbound HTTP request as the middleware chain sees it: the request
path and the bearer token extracted from the `Authorization` header. -/
structure HttpRequest where
  path : String
  bearerToken : Option String
deriving DecidableEq, Repr

/-- The `unless` path list of the `expressjwt` middleware in app.ts:
`['/api-docs', /^\/api-docs\/.*/, '/users/login', '/users/logout',
'/status', '/trips', /^\/trips\/.*/]`. -/
def isJwtExempt (path : String) : Bool :=
  path == "/api-docs" || "/api-docs/".toList.isPrefixOf path.toList ||
  path == "/users/login" || path == "/users/logout" ||
  path == "/status" || path == "/trips" || "/trips/".toList.isPrefixOf path.toList

/-- Outcome of the app-level middleware chain for a request: rejected by the
blacklist check, rejected by `expressjwt`, or passed through to the router
with `req.auth` (absent on exempt paths, where `expressjwt` is skipped). -/
inductive GateResult where
  | rejectedRevoked
  | rejectedUnauthorized
  | proceed (auth : Option SessionClaims)
deriving DecidableEq, Repr

/-- The middleware chain of app.ts in registration order: first the token
blacklist check (a pure membership test on the presented string, performed
before any signature verification), then `expressjwt` (skipped entirely on
exempt paths, so `req.auth` stays unset there), modelled with an abstract
signature/expiry verifier `jwtVerify`. -/
def gateRequest (jwtVerify : String → Option SessionClaims) (st : ServerState)
    (req : HttpRequest) : GateResult :=
  let blocked :=
    match req.bearerToken with
    | some tok => st.tokenBlacklist.contains tok
    | none => false
  if blocked then .rejectedRevoked
  else if isJwtExempt req.path then .proceed none
  else
    match req.bearerToken with
    | none => .rejectedUnauthorized
    | some tok =>
      match jwtVerify tok with
      | none => .rejectedUnauthorized
      | some claims => .proceed (some claims)

/-- Response of the logout route. -/
inductive LogoutResult where
  | ok
  | unauthorized
deriving DecidableEq, Repr

/-- POST /users/logout end to end: the request traverses the middleware
chain at path `/users/logout`; the handler adds the presented token to the
blacklist when one is present, and calls `userService.logout` (which deletes
every remember-me row of the account) only when `req.auth?.userId` is
present. -/
def handleLogout (jwtVerify : String → Option SessionClaims) (st : ServerState)
    (bearerToken : Option String) : ServerState × LogoutResult :=
  match gateRequest jwtVerify st ⟨"/users/logout", bearerToken⟩ with
  | .rejectedRevoked => (st, .unauthorized)
  | .rejectedUnauthorized => (st, .unauthorized)
  | .proceed auth =>
    let st1 :=
      match bearerToken with
      | some tok => { st with tokenBlacklist := revoke st.tokenBlacklist tok }
      | none => st
    let st2 :=
      match auth with
      | some claims =>
        { st1 with rememberMeTokens :=
            st1.rememberMeTokens.filter (fun r => r.userId ≠ claims.userId) }
      | none => st1
    (st2, .ok)

/-! ## Auxiliary characterizations used by the proofs -/

/-- Proof auxiliary: `chainFrom p k l` holds when the first `k` characters
of `l` continue an adjacent-difference-one chain started at `p`. -/
def chainFrom : Char → Nat → List Char → Bool
  | _, 0, _ => true
  | _, _ + 1, [] => false
  | p, k + 1, c :: rest => absOne p c && chainFrom c k rest

/-- Proof auxiliary: some window of 4 consecutive characters of the list has
all three adjacent code-point differences equal to one in absolute value. -/
def hasRun : List Char → Bool
  | [] => false
  | a :: rest => chainFrom a 3 rest || hasRun rest

/-- Modelled from the claim's words (claim C7): some run of at least 4
consecutive characters forms a strictly ascending or strictly descending
sequence of adjacent code points.  This is the property the claim asserts
`hasSequentialCharacters` decides; it is compared against the source
function, not derived from it. -/
def claimMonotoneRun4 : List Char → Bool
  | a :: b :: c :: d :: rest =>
    (decide (a.toNat + 1 = b.toNat ∧ b.toNat + 1 = c.toNat ∧ c.toNat + 1 = d.toNat) ||
     decide (b.toNat + 1 = a.toNat ∧ c.toNat + 1 = b.toNat ∧ d.toNat + 1 = c.toNat)) ||
    claimMonotoneRun4 (b :: c :: d :: rest)
  | _ => false

/-- An expiry timestamp that is absent or strictly in the past. -/
def expiredNow (expirationTime : Option Nat) (now : Nat) : Prop :=
  expirationTime = none ∨ ∃ t, expirationTime = some t ∧ t < now

/-- A concrete verified account used to instantiate witnesses. -/
def baseUser : UserAcc where
  id := 1
  firstName := "Alice"
  lastName := "Smith"
  email := "alice@example.com".toList
  password := "Xk9!mQw2Rt7%".toList
  isOrganiser := false
  emailVerified := true
  emailVerificationToken := none
  emailVerificationTokenExp := none
  passwordResetToken := none
  passwordResetTokenExp := none
  failedLoginAttempts := 0
  lockedUntil := none
  mfaEnabled := false
  mfaCode := none
  mfaCodeExp := none

/-! ## Lemmas about the sequential-character scan -/

/-- A longer chain requirement subsumes a shorter one. -/
theorem chainFrom_of_le (l : List Char) (p : Char) (j k : Nat) (hjk : j ≤ k)
    (h : chainFrom p k l = true) : chainFrom p j l = true := by
  induction l generalizing p j k with
  | nil =>
    cases j with
    | zero => rfl
    | succ j1 =>
      cases k with
      | zero => omega
      | succ k1 => simp [chainFrom] at h
  | cons c rest ih =>
    cases j with
    | zero => rfl
    | succ j1 =>
      cases k with
      | zero => omega
      | succ k1 =>
        simp only [chainFrom, Bool.and_eq_true] at h ⊢
        exact ⟨h.1, ih c j1 k1 (by omega) h.2⟩

/-- Invariant of the scanning loop of `hasSequentialCharacters`: with `count`
pairs already accumulated ending at `prev`, the loop succeeds iff either the
next `4 - count` characters continue the chain, or a full window of 4 occurs
further on. -/
theorem seqLoop_eq (l : List Char) (prev : Char) (count : Nat)
    (h1 : 1 ≤ count) (h3 : count ≤ 3) :
    seqLoop prev count l = (chainFrom prev (4 - count) l || hasRun l) := by
  induction l generalizing prev count with
  | nil =>
    obtain ⟨m, hm⟩ : ∃ m, 4 - count = m + 1 := ⟨3 - count, by omega⟩
    rw [hm]
    simp [seqLoop, chainFrom, hasRun]
  | cons c rest ih =>
    by_cases habs : absOne prev c = true
    · by_cases hcnt : count + 1 ≥ 4
      · have hc3 : count = 3 := by omega
        subst hc3
        have hchain : chainFrom prev (4 - 3) (c :: rest) = true := by
          simp [chainFrom, habs]
        simp [seqLoop, habs, hchain]
      · have hstep : seqLoop prev count (c :: rest) = seqLoop c (count + 1) rest := by
          simp [seqLoop, habs, hcnt]
        have hrec := ih c (count + 1) (by omega) (by omega)
        have harith : 4 - (count + 1) = 3 - count := by omega
        rw [hstep, hrec, harith]
        have hleft : chainFrom prev (4 - count) (c :: rest) =
            chainFrom c (3 - count) rest := by
          obtain ⟨m, hm⟩ : ∃ m, 4 - count = m + 1 := ⟨3 - count, by omega⟩
          have hm2 : m = 3 - count := by omega
          rw [hm, hm2]
          simp [chainFrom, habs]
        have hR : hasRun (c :: rest) = (chainFrom c 3 rest || hasRun rest) := rfl
        rw [hR, hleft]
        cases hc3r : chainFrom c 3 rest with
        | false => simp
        | true =>
          have := chainFrom_of_le rest c (3 - count) 3 (by omega) hc3r
          simp [this]
    · have hstep : seqLoop prev count (c :: rest) = seqLoop c 1 rest := by
        simp [seqLoop, habs]
      have hrec := ih c 1 (by omega) (by omega)
      have hleft : chainFrom prev (4 - count) (c :: rest) = false := by
        obtain ⟨m, hm⟩ : ∃ m, 4 - count = m + 1 := ⟨3 - count, by omega⟩
        rw [hm]
        simp [chainFrom, habs]
      have hR : hasRun (c :: rest) = (chainFrom c 3 rest || hasRun rest) := rfl
      rw [hstep, hrec, hleft, hR]
      simp

/-- The scanning loop decides exactly the windowed property `hasRun`. -/
theorem hasSequentialCharacters_eq_hasRun (p : List Char) :
    hasSequentialCharacters p = hasRun p := by
  cases p with
  | nil => rfl
  | cons a rest =>
    have h := seqLoop_eq rest a 1 (by omega) (by omega)
    simpa [hasSequentialCharacters, hasRun] using h

/-- Windowed characterization of `hasRun` as an explicit decomposition into
a prefix, a 4-character window with unit adjacent differences, and a
suffix. -/
theorem hasRun_iff (l : List Char) :
    hasRun l = true ↔
      ∃ a b c d l1 l2, l = l1 ++ a :: b :: c :: d :: l2 ∧
        absOne a b = true ∧ absOne b c = true ∧ absOne c d = true := by
  induction l with
  | nil =>
    constructor
    · intro h
      simp [hasRun] at h
    · rintro ⟨a, b, c, d, l1, l2, heq, -, -, -⟩
      cases l1 <;> simp at heq
  | cons x rest ih =>
    constructor
    · intro h
      have hsplit : chainFrom x 3 rest = true ∨ hasRun rest = true := by
        simpa [hasRun] using h
      rcases hsplit with hchain | hrun
      · cases rest with
        | nil => simp [chainFrom] at hchain
        | cons b r1 =>
          cases r1 with
          | nil => simp [chainFrom] at hchain
          | cons c r2 =>
            cases r2 with
            | nil => simp [chainFrom] at hchain
            | cons d r3 =>
              obtain ⟨ha, hb, hc⟩ :
                  absOne x b = true ∧ absOne b c = true ∧ absOne c d = true := by
                simpa [chainFrom] using hchain
              exact ⟨x, b, c, d, [], r3, rfl, ha, hb, hc⟩
      · obtain ⟨a, b, c, d, l1, l2, heq, h1, h2, h3⟩ := ih.mp hrun
        exact ⟨a, b, c, d, x :: l1, l2, by rw [heq, List.cons_append], h1, h2, h3⟩
    · rintro ⟨a, b, c, d, l1, l2, heq, h1, h2, h3⟩
      cases l1 with
      | nil =>
        obtain ⟨rfl, rfl⟩ : x = a ∧ rest = b :: c :: d :: l2 := by
          simpa using heq
        have hch : chainFrom x 3 (b :: c :: d :: l2) = true := by
          simp [chainFrom, h1, h2, h3]
        simp [hasRun, hch]
      | cons y l1t =>
        obtain ⟨-, hrest⟩ : x = y ∧ rest = l1t ++ a :: b :: c :: d :: l2 := by
          simpa using heq
        have hr := ih.mpr ⟨a, b, c, d, l1t, l2, hrest, h1, h2, h3⟩
        simp [hasRun, hr]

/-! ## Small helper lemmas -/

/-- An absent-or-past expiry makes `isTokenExpired` report true. -/
theorem expiredNow_isTokenExpired (expirationTime : Option Nat) (now : Nat)
    (h : expiredNow expirationTime now) : isTokenExpired expirationTime now = true := by
  rcases h with rfl | ⟨t, rfl, hlt⟩
  · rfl
  · simp [isTokenExpired]
    omega

/-- Membership in a conditional singleton produced on the true branch. -/
theorem mem_if_cons (c : Prop) [Decidable c] (a m : String) :
    (a ∈ if c then [m] else ([] : List String)) ↔ c ∧ a = m := by
  split <;> simp_all

/-- Membership in a conditional singleton produced on the false branch. -/
theorem mem_if_nil (c : Prop) [Decidable c] (a m : String) :
    (a ∈ if c then ([] : List String) else [m]) ↔ ¬c ∧ a = m := by
  split <;> simp_all

/-- For a nonempty password, the sequential-characters violation is reported
by `validate` exactly when `hasSequentialCharacters` fires. -/
theorem errSequential_mem_validate (p : List Char) (hp : p ≠ []) :
    errSequential ∈ (validate p).errors ↔ hasSequentialCharacters p = true := by
  have hne : p.isEmpty = false := by
    cases p with
    | nil => exact absurd rfl hp
    | cons a l => rfl
  simp only [validate, hne, Bool.false_eq_true, if_false]
  simp only [List.mem_append, mem_if_cons, mem_if_nil]
  constructor
  · rintro (((((((⟨-, h⟩ | ⟨-, h⟩) | ⟨-, h⟩) | ⟨-, h⟩) | ⟨-, h⟩) | ⟨-, h⟩) | ⟨-, h⟩) | ⟨hseq, -⟩)
    · exact absurd h (by decide)
    · exact absurd h (by decide)
    · exact absurd h (by decide)
    · exact absurd h (by decide)
    · exact absurd h (by decide)
    · exact absurd h (by decide)
    · exact absurd h (by decide)
    · exact hseq
  · intro hseq
    exact Or.inr ⟨hseq, trivial⟩

/-! ## Claim theorems -/

/-- Claim C1 (refuted by the code, which contradicts its own comment
`Update password and clear MFA code`): a successful `verifyChangePassword`
leaves the stored MFA code and its expiry untouched, because the only write
on its success path is `userDB.updatePassword`, which does not clear the
MFA fields; consequently an immediately repeated call presenting the same
code succeeds a second time instead of failing. -/
theorem C1_verifyChangePassword_leaves_mfa_code
    (hashF : List Char → List Char) (now : Nat) (u : UserAcc)
    (code newPw : List Char)
    (hcode : u.mfaCode = some code)
    (hexp : isTokenExpired u.mfaCodeExp now = false)
    (hval : (validate newPw).isValid = true) :
    (verifyChangePassword hashF now u code newPw).2 = .ok msgPasswordChanged ∧
    (verifyChangePassword hashF now u code newPw).1.mfaCode = some code ∧
    (verifyChangePassword hashF now u code newPw).1.mfaCodeExp = u.mfaCodeExp ∧
    (verifyChangePassword hashF now
        (verifyChangePassword hashF now u code newPw).1 code newPw).2 =
      .ok msgPasswordChanged := by
  have hrun : verifyChangePassword hashF now u code newPw =
      (dbUpdatePassword hashF u newPw, .ok msgPasswordChanged) := by
    simp [verifyChangePassword, hcode, hexp, hval]
  have hmfa : (dbUpdatePassword hashF u newPw).mfaCode = u.mfaCode := rfl
  have hmfaExp : (dbUpdatePassword hashF u newPw).mfaCodeExp = u.mfaCodeExp := rfl
  refine ⟨by rw [hrun], by rw [hrun]; exact hmfa.trans hcode,
    by rw [hrun]; exact hmfaExp, ?_⟩
  rw [hrun]
  simp [verifyChangePassword, hmfa.trans hcode, hmfaExp, hexp, hval]

/-- Witness for C1: a concrete account with a live MFA code completes
`verifyChangePassword` twice in a row with the very same code. -/
theorem C1_witness :
    (verifyChangePassword (fun pw => pw) 100
        { baseUser with mfaCode := some "483920".toList, mfaCodeExp := some 10000 }
        "483920".toList "Xk9!mQw2Rt7%".toList).2 = .ok msgPasswordChanged ∧
    (verifyChangePassword (fun pw => pw) 100
        { baseUser with mfaCode := some "483920".toList, mfaCodeExp := some 10000 }
        "483920".toList "Xk9!mQw2Rt7%".toList).1.mfaCode = some "483920".toList ∧
    (verifyChangePassword (fun pw => pw) 100
        { baseUser with mfaCode := some "483920".toList, mfaCodeExp := some 10000 }
        "483920".toList "Xk9!mQw2Rt7%".toList).1.mfaCodeExp = some 10000 ∧
    (verifyChangePassword (fun pw => pw) 100
        (verifyChangePassword (fun pw => pw) 100
          { baseUser with mfaCode := some "483920".toList, mfaCodeExp := some 10000 }
          "483920".toList "Xk9!mQw2Rt7%".toList).1
        "483920".toList "Xk9!mQw2Rt7%".toList).2 = .ok msgPasswordChanged :=
  C1_verifyChangePassword_leaves_mfa_code (fun pw => pw) 100
    { baseUser with mfaCode := some "483920".toList, mfaCodeExp := some 10000 }
    "483920".toList "Xk9!mQw2Rt7%".toList rfl (by decide) (by decide)

/-- Claim C2: for a verified, not-currently-locked account, every failed
password comparison persists the incremented counter together with the
error; the failure that brings the count to `5` sets a 30-minute lock and
reports the distinct too-many-attempts message, while failures below the
threshold report the generic incorrect-password message and leave no lock;
the two messages differ; and any attempt while `lockedUntil` is in the
future returns the account-locked error (with the minutes remaining) and
the unchanged account, for every password and every password verifier, so
the password comparison is never consulted. -/
theorem C2_lockout_behaviour :
    (∀ (verifyF : List Char → List Char → Bool) (genMfa : List Char)
        (now : Nat) (u : UserAcc) (pw : List Char),
      u.emailVerified = true →
      isAccountLocked u now = false →
      verifyF pw u.password = false →
      (authenticate verifyF genMfa now u pw).1.failedLoginAttempts =
          u.failedLoginAttempts + 1 ∧
      ((authenticate verifyF genMfa now u pw).2 =
        if u.failedLoginAttempts + 1 ≥ 5 then Except.error errTooManyAttempts
        else Except.error errIncorrectPassword) ∧
      (u.failedLoginAttempts + 1 ≥ 5 →
        (authenticate verifyF genMfa now u pw).1.lockedUntil =
          some (now + lockoutDurationMs)) ∧
      (u.failedLoginAttempts + 1 < 5 →
        (authenticate verifyF genMfa now u pw).1.lockedUntil = none)) ∧
    errTooManyAttempts ≠ errIncorrectPassword ∧
    (∀ (verifyF : List Char → List Char → Bool) (genMfa : List Char)
        (now : Nat) (u : UserAcc) (pw : List Char) (t : Nat),
      u.emailVerified = true →
      u.lockedUntil = some t →
      now < t →
      authenticate verifyF genMfa now u pw =
        (u, .error (accountLockedMsg (ceilMinutes (t - now))))) := by
  refine ⟨?_, by decide, ?_⟩
  · intro verifyF genMfa now u pw hver hlock hpw
    by_cases hth : u.failedLoginAttempts + 1 ≥ 5
    · simp [authenticate, hver, hlock, hpw, maxAttempts, hth,
        dbUpdateFailedLoginAttempts]
    · simp [authenticate, hver, hlock, hpw, maxAttempts, hth,
        dbUpdateFailedLoginAttempts]
  · intro verifyF genMfa now u pw t hver hlockeq hfut
    have hlock : isAccountLocked u now = true := by
      simp [isAccountLocked, hlockeq, hfut]
    simp [authenticate, hver, hlock, hlockeq]

/-- Witness for C2: the 5th consecutive failure on a verified account locks
it and reports the distinct message, an earlier failure reports the generic
message, and an attempt on a locked account reports the minutes left. -/
theorem C2_witness :
    (authenticate (fun _ _ => false) [] 1000
        { baseUser with failedLoginAttempts := 4 } "xx".toList).1.failedLoginAttempts = 5 ∧
    (authenticate (fun _ _ => false) [] 1000
        { baseUser with failedLoginAttempts := 4 } "xx".toList).2 =
      .error errTooManyAttempts ∧
    (authenticate (fun _ _ => false) [] 1000
        { baseUser with failedLoginAttempts := 4 } "xx".toList).1.lockedUntil =
      some (1000 + lockoutDurationMs) ∧
    (authenticate (fun _ _ => false) [] 1000 baseUser "xx".toList).2 =
      .error errIncorrectPassword ∧
    authenticate (fun _ _ => true) [] 1000
        { baseUser with lockedUntil := some 61000 } "xx".toList =
      ({ baseUser with lockedUntil := some 61000 }, .error (accountLockedMsg 1)) := by
  obtain ⟨hA, -, hC⟩ := C2_lockout_behaviour
  have h4 := hA (fun _ _ => false) [] 1000
    { baseUser with failedLoginAttempts := 4 } "xx".toList rfl rfl rfl
  have h0 := hA (fun _ _ => false) [] 1000 baseUser "xx".toList rfl rfl rfl
  have hL := hC (fun _ _ => true) [] 1000
    { baseUser with lockedUntil := some 61000 } "xx".toList 61000 rfl rfl (by omega)
  refine ⟨h4.1, ?_, h4.2.2.1 (by decide), ?_, ?_⟩
  · simpa using h4.2.1
  · simpa using h0.2.1
  · simpa using hL

/-- Claim C3: a stored secret whose expiry timestamp is absent or strictly
in the past is rejected in every verification path, even when the presented
value equals the stored one exactly; `isTokenExpired` itself reports an
absent timestamp as expired. -/
theorem C3_expired_secrets_never_valid :
    (∀ now : Nat, isTokenExpired none now = true) ∧
    (∀ (now : Nat) (u : UserAcc),
      expiredNow u.emailVerificationTokenExp now →
      (verifyEmailSvc now (some u)).2 = .error errVerifyExpiredToken ∧
      (verifyEmailSvc now (some u)).1 = some u) ∧
    (∀ (now : Nat) (u : UserAcc) (code : List Char),
      u.mfaCode = some code →
      expiredNow u.mfaCodeExp now →
      (verifyMFA now u code).2 = .error errMfaExpired) ∧
    (∀ (hashF : List Char → List Char) (now : Nat) (u : UserAcc) (pw : List Char),
      expiredNow u.passwordResetTokenExp now →
      (resetPassword hashF now (some u) pw).2 = .error errResetExpiredToken) ∧
    (∀ (hashF : List Char → List Char) (now : Nat) (u : UserAcc)
        (code newPw : List Char),
      u.mfaCode = some code →
      expiredNow u.mfaCodeExp now →
      (verifyChangePassword hashF now u code newPw).2 = .error errChangeMfaExpired) ∧
    (∀ (now : Nat) (recs : List RememberMeRec) (users : Nat → Option UserAcc)
        (tok : String) (r : RememberMeRec),
      recs.find? (fun x => x.token == tok) = some r →
      r.expiresAt < now →
      (verifyRememberMeTokenSvc now recs users tok).2 = .error errRememberMeExpired) := by
  refine ⟨fun now => rfl, ?_, ?_, ?_, ?_, ?_⟩
  · intro now u hex
    have h := expiredNow_isTokenExpired _ _ hex
    simp [verifyEmailSvc, h]
  · intro now u code hcode hex
    have h := expiredNow_isTokenExpired _ _ hex
    simp [verifyMFA, hcode, h]
  · intro hashF now u pw hex
    have h := expiredNow_isTokenExpired _ _ hex
    simp [resetPassword, h]
  · intro hashF now u code newPw hcode hex
    have h := expiredNow_isTokenExpired _ _ hex
    simp [verifyChangePassword, hcode, h]
  · intro now recs users tok r hfind hlt
    simp [verifyRememberMeTokenSvc, hfind, hlt]

/-- Witness for C3: every verification path rejects a concrete expired (or
absent-expiry) secret that textually matches the stored value. -/
theorem C3_witness :
    isTokenExpired none 5 = true ∧
    (verifyEmailSvc 100 (some { baseUser with
        emailVerificationToken := some "tokA".toList,
        emailVerificationTokenExp := some 50 })).2 = .error errVerifyExpiredToken ∧
    (verifyMFA 100 { baseUser with
        mfaCode := some "123456".toList, mfaCodeExp := some 50 }
      "123456".toList).2 = .error errMfaExpired ∧
    (resetPassword (fun pw => pw) 100 (some { baseUser with
        passwordResetToken := some "tokB".toList, passwordResetTokenExp := none })
      "Xk9!mQw2Rt7%".toList).2 = .error errResetExpiredToken ∧
    (verifyChangePassword (fun pw => pw) 100 { baseUser with
        mfaCode := some "123456".toList, mfaCodeExp := some 50 }
      "123456".toList "Xk9!mQw2Rt7%".toList).2 = .error errChangeMfaExpired ∧
    (verifyRememberMeTokenSvc 100 [⟨1, "rm", 50⟩] (fun _ => some baseUser)
      "rm").2 = .error errRememberMeExpired := by
  obtain ⟨h1, h2, h3, h4, h5, h6⟩ := C3_expired_secrets_never_valid
  exact ⟨h1 5,
    (h2 100 _ (Or.inr ⟨50, rfl, by omega⟩)).1,
    h3 100 _ "123456".toList rfl (Or.inr ⟨50, rfl, by omega⟩),
    h4 (fun pw => pw) 100 _ "Xk9!mQw2Rt7%".toList (Or.inl rfl),
    h5 (fun pw => pw) 100 _ "123456".toList "Xk9!mQw2Rt7%".toList rfl
      (Or.inr ⟨50, rfl, by omega⟩),
    h6 100 [⟨1, "rm", 50⟩] (fun _ => some baseUser) "rm" ⟨1, "rm", 50⟩
      (by decide) (by decide)⟩

/-- Counterexample to claim C4 as stated: an expired verification token and
an unknown verification token produce domain errors with different messages,
so the two cases are distinguishable from the response. -/
theorem C4_counterexample :
    (verifyEmailSvc 100 (some { baseUser with
        emailVerificationToken := some "tokA".toList,
        emailVerificationTokenExp := some 50 })).2 = .error errVerifyExpiredToken ∧
    (verifyEmailSvc 100 none).2 = .error errVerifyInvalidToken ∧
    errVerifyExpiredToken ≠ errVerifyInvalidToken :=
  ⟨rfl, rfl, by decide⟩

/-- Claim C4 as amended: `verifyEmail` fails on an unknown token and on an
expired token alike, both as thrown domain errors, but with different
messages (`Verification token has expired. Please request a new one.`
versus `Invalid or expired verification token.`), so a caller can tell a
correct-but-expired token apart from a wrong token. -/
theorem C4_expired_vs_unknown_token :
    (∀ now : Nat, (verifyEmailSvc now none).2 = .error errVerifyInvalidToken) ∧
    (∀ (now : Nat) (u : UserAcc),
      expiredNow u.emailVerificationTokenExp now →
      (verifyEmailSvc now (some u)).2 = .error errVerifyExpiredToken) ∧
    errVerifyExpiredToken ≠ errVerifyInvalidToken := by
  refine ⟨fun now => rfl, ?_, by decide⟩
  intro now u hex
  simp [verifyEmailSvc, expiredNow_isTokenExpired _ _ hex]

/-- Witness for C4: the two branches at concrete inputs. -/
theorem C4_witness :
    (verifyEmailSvc 7 none).2 = .error errVerifyInvalidToken ∧
    (verifyEmailSvc 7 (some { baseUser with
        emailVerificationToken := some "tokC".toList,
        emailVerificationTokenExp := some 3 })).2 = .error errVerifyExpiredToken :=
  ⟨C4_expired_vs_unknown_token.1 7,
   C4_expired_vs_unknown_token.2.1 7 _ (Or.inr ⟨3, rfl, by omega⟩)⟩

/-- Claim C5 (refuted by the code, which contradicts its own comment
`Don't leak if email exists or not`): `forgotPassword` succeeds for both an
existing and a non-existent email, but with textually different messages
(the existing-email branch says the link was sent, the catch branch says
`if an account exists`), so the flow is distinguishable after all; `signup`
for a registered email does return the distinguishable conflict error. -/
theorem C5_forgot_password_messages_differ :
    ∀ (resetTok : List Char) (now : Nat) (u : UserAcc) (password email : List Char),
      (forgotPassword resetTok now (some u)).2 = msgForgotSpecific ∧
      (forgotPassword resetTok now none).2 = msgForgotGeneric ∧
      msgForgotSpecific ≠ msgForgotGeneric ∧
      signup (some u) password email = .error errEmailRegistered := by
  intro resetTok now u password email
  exact ⟨rfl, rfl, by decide, rfl⟩

/-- Claim C6 (refuted by the code, which contradicts the route's own
documentation `revokes remember me tokens`): because `/users/logout` is on
the `expressjwt` exempt list, `req.auth` is never populated there, so the
logout handler blacklists the presented session token but never reaches the
`userService.logout` call that would delete the account's remember-me rows;
the blacklist insert itself works and is checked before signature
verification on every later request. -/
theorem C6_logout_blacklists_but_keeps_remember_me :
    ∀ (jwtVerify : String → Option SessionClaims) (st : ServerState) (tok : String),
      tok ∉ st.tokenBlacklist →
      (handleLogout jwtVerify st (some tok)).2 = .ok ∧
      tok ∈ (handleLogout jwtVerify st (some tok)).1.tokenBlacklist ∧
      (handleLogout jwtVerify st (some tok)).1.rememberMeTokens =
        st.rememberMeTokens ∧
      (∀ (jwtVerify2 : String → Option SessionClaims) (path : String),
        gateRequest jwtVerify2 (handleLogout jwtVerify st (some tok)).1
          ⟨path, some tok⟩ = .rejectedRevoked) := by
  intro jwtVerify st tok hnotin
  have hexempt : isJwtExempt "/users/logout" = true := by decide
  have hgate : gateRequest jwtVerify st ⟨"/users/logout", some tok⟩ = .proceed none := by
    simp [gateRequest, hnotin, hexempt]
  have hrun : handleLogout jwtVerify st (some tok) =
      ({ st with tokenBlacklist := revoke st.tokenBlacklist tok }, .ok) := by
    simp [handleLogout, hgate]
  have hrevoke : revoke st.tokenBlacklist tok = tok :: st.tokenBlacklist := by
    simp [revoke, hnotin]
  refine ⟨by rw [hrun], ?_, by rw [hrun], ?_⟩
  · rw [hrun]
    simp only [hrevoke]
    exact List.mem_cons_self tok st.tokenBlacklist
  · intro jwtVerify2 path
    rw [hrun]
    simp only [hrevoke]
    simp [gateRequest]

/-- Witness for C6: a concrete logout blacklists the bearer token (which is
then rejected before signature verification), yet the account's remember-me
token survives and is still redeemable for a fresh session afterwards. -/
theorem C6_witness :
    (handleLogout (fun _ => none) ⟨[], [⟨1, "rm", 5000⟩]⟩ (some "jwt1")).2 = .ok ∧
    (handleLogout (fun _ => none) ⟨[], [⟨1, "rm", 5000⟩]⟩
        (some "jwt1")).1.rememberMeTokens = [⟨1, "rm", 5000⟩] ∧
    gateRequest (fun _ => none)
      (handleLogout (fun _ => none) ⟨[], [⟨1, "rm", 5000⟩]⟩ (some "jwt1")).1
      ⟨"/trips", some "jwt1"⟩ = .rejectedRevoked ∧
    (verifyRememberMeTokenSvc 100
        (handleLogout (fun _ => none) ⟨[], [⟨1, "rm", 5000⟩]⟩
          (some "jwt1")).1.rememberMeTokens
        (fun i => if i = 1 then some baseUser else none) "rm").2 =
      .ok ⟨1, "alice@example.com".toList, false⟩ := by
  have h := C6_logout_blacklists_but_keeps_remember_me (fun _ => none)
    ⟨[], [⟨1, "rm", 5000⟩]⟩ "jwt1" (by simp)
  refine ⟨h.1, h.2.2.1, h.2.2.2 (fun _ => none) "/trips", ?_⟩
  rw [h.2.2.1]
  rfl

/-- Counterexample to claim C7 as stated: the password `abab` contains no
strictly ascending or descending run of 4 adjacent code points, yet the
source's sequential-run check fires on it (the loop counts absolute
differences of 1 regardless of direction). -/
theorem C7_counterexample :
    hasSequentialCharacters "abab".toList = true ∧
    claimMonotoneRun4 "abab".toList = false := by decide

/-- Claim C7 as amended: the sequential-run check fires exactly when some 4
consecutive characters have all three adjacent code-point differences equal
to one in absolute value (each step may ascend or descend independently);
for nonempty passwords this is exactly when `validate` reports the
sequential-characters violation. -/
theorem C7_sequential_check_characterization :
    (∀ p : List Char, hasSequentialCharacters p = true ↔
      ∃ a b c d l1 l2, p = l1 ++ a :: b :: c :: d :: l2 ∧
        absOne a b = true ∧ absOne b c = true ∧ absOne c d = true) ∧
    (∀ p : List Char, p ≠ [] →
      (errSequential ∈ (validate p).errors ↔ hasSequentialCharacters p = true)) := by
  constructor
  · intro p
    rw [hasSequentialCharacters_eq_hasRun]
    exact hasRun_iff p
  · exact errSequential_mem_validate

/-- Witness for C7: the run `abcd` makes the check fire, decomposes as a
unit-difference window, and surfaces as the sequential violation. -/
theorem C7_witness :
    (∃ a b c d l1 l2, "abcd".toList = l1 ++ a :: b :: c :: d :: l2 ∧
      absOne a b = true ∧ absOne b c = true ∧ absOne c d = true) ∧
    errSequential ∈ (validate "abcd".toList).errors :=
  ⟨(C7_sequential_check_characterization.1 "abcd".toList).mp (by decide),
   (C7_sequential_check_characterization.2 "abcd".toList (by decide)).mpr (by decide)⟩

/-- Counterexample to claim C8 as stated: the empty password has length
below 12, but its reported violation list is exactly `[errRequired]`, which
contains neither length violation. -/
theorem C8_counterexample :
    ([] : List Char).length < 12 ∧
    (validate ([] : List Char)).isValid = false ∧
    (validate ([] : List Char)).errors = [errRequired] ∧
    errMinLength ∉ (validate ([] : List Char)).errors ∧
    errMaxLength ∉ (validate ([] : List Char)).errors := by decide

/-- Claim C8 as amended: every nonempty password shorter than 12 characters
is rejected with the minimum-length violation among the reported violations
(the empty password is instead rejected with the single violation
`Password is required`); and every password of length 12..128 containing an
uppercase letter, a lowercase letter, a digit and a special character, with
no denylisted substring and no sequential run, is accepted with an empty
violation list. -/
theorem C8_length_and_acceptance :
    (∀ p : List Char, p ≠ [] → p.length < 12 →
      (validate p).isValid = false ∧ errMinLength ∈ (validate p).errors) ∧
    (∀ p : List Char, 12 ≤ p.length → p.length ≤ 128 →
      p.any isUpperChar = true → p.any isLowerChar = true →
      p.any isDigitChar = true → p.any isSpecialChar = true →
      isCommonPassword p = false → hasSequentialCharacters p = false →
      validate p = ⟨true, []⟩) := by
  constructor
  · intro p hp h12
    have hne : p.isEmpty = false := by
      cases p with
      | nil => exact absurd rfl hp
      | cons a l => rfl
    have h12m : p.length < minLength := h12
    simp [validate, hne, h12m]
  · intro p h12 h128 hup hlo hdig hsp hcom hseq
    have hne : p.isEmpty = false := by
      cases p with
      | nil => simp at h12
      | cons a l => rfl
    have h1 : ¬ (p.length < minLength) := by simp [minLength]; omega
    have h2 : ¬ (p.length > maxLength) := by simp [maxLength]; omega
    simp [validate, hne, h1, h2, hup, hlo, hdig, hsp, hcom, hseq]

/-- Witness for C8: a short password reports the minimum-length violation,
and a compliant 12-character password is accepted. -/
theorem C8_witness :
    ((validate "Ab1!".toList).isValid = false ∧
      errMinLength ∈ (validate "Ab1!".toList).errors) ∧
    validate "Xk9!mQw2Rt7%".toList = ⟨true, []⟩ :=
  ⟨C8_length_and_acceptance.1 "Ab1!".toList (by decide) (by decide),
   C8_length_and_acceptance.2 "Xk9!mQw2Rt7%".toList (by decide) (by decide)
     (by decide) (by decide) (by decide) (by decide) (by decide) (by decide)⟩

/-- Claim C9: a `resetPassword` with an unexpired token and a
policy-compliant new password not containing the email local-part succeeds,
and the single persisted update stores the new hash while clearing the
reset token, its expiry, the failed-attempt counter and the lock, so that a
subsequent login with the new password on the (MFA-disabled, verified)
account succeeds. -/
theorem C9_reset_clears_lockout_then_login_succeeds
    (hashF : List Char → List Char) (verifyF : List Char → List Char → Bool)
    (genMfa : List Char) (now1 now2 : Nat) (u : UserAcc) (newPw : List Char)
    (hexp : isTokenExpired u.passwordResetTokenExp now1 = false)
    (hval : (validate newPw).isValid = true)
    (hemail : isPasswordContainsEmail newPw u.email = false)
    (hver : u.emailVerified = true)
    (hmfa : u.mfaEnabled = false)
    (hhash : verifyF newPw (hashF newPw) = true) :
    (resetPassword hashF now1 (some u) newPw).2 = .ok msgResetOk ∧
    ∃ u2, (resetPassword hashF now1 (some u) newPw).1 = some u2 ∧
      u2.failedLoginAttempts = 0 ∧
      u2.lockedUntil = none ∧
      u2.passwordResetToken = none ∧
      u2.passwordResetTokenExp = none ∧
      u2.password = hashF newPw ∧
      (authenticate verifyF genMfa now2 u2 newPw).2 =
        .ok (AuthOutcome.success ⟨u.id, u.email, u.isOrganiser⟩) := by
  have hrun : resetPassword hashF now1 (some u) newPw =
      (some (dbUpdatePassword hashF u newPw), .ok msgResetOk) := by
    simp [resetPassword, hexp, hval, hemail]
  refine ⟨by rw [hrun], dbUpdatePassword hashF u newPw, by rw [hrun],
    rfl, rfl, rfl, rfl, rfl, ?_⟩
  simp [authenticate, dbUpdatePassword, isAccountLocked, hver, hmfa, hhash]

/-- Witness for C9: a locked account resets its password and immediately
logs in with the new password. -/
theorem C9_witness :
    (resetPassword (fun pw => pw) 100 (some { baseUser with
        passwordResetToken := some "tokD".toList,
        passwordResetTokenExp := some 10000,
        failedLoginAttempts := 5,
        lockedUntil := some 999999 }) "Xk9!mQw2Rt7%".toList).2 = .ok msgResetOk ∧
    ∃ u2, (resetPassword (fun pw => pw) 100 (some { baseUser with
        passwordResetToken := some "tokD".toList,
        passwordResetTokenExp := some 10000,
        failedLoginAttempts := 5,
        lockedUntil := some 999999 }) "Xk9!mQw2Rt7%".toList).1 = some u2 ∧
      u2.failedLoginAttempts = 0 ∧
      u2.lockedUntil = none ∧
      u2.passwordResetToken = none ∧
      u2.passwordResetTokenExp = none ∧
      u2.password = (fun pw => pw) "Xk9!mQw2Rt7%".toList ∧
      (authenticate (fun pw h => pw == h) [] 2000 u2 "Xk9!mQw2Rt7%".toList).2 =
        .ok (AuthOutcome.success ⟨1, "alice@example.com".toList, false⟩) :=
  C9_reset_clears_lockout_then_login_succeeds (fun pw => pw) (fun pw h => pw == h)
    [] 100 2000
    { baseUser with
      passwordResetToken := some "tokD".toList,
      passwordResetTokenExp := some 10000,
      failedLoginAttempts := 5,
      lockedUntil := some 999999 }
    "Xk9!mQw2Rt7%".toList (by decide) (by decide) (by decide) rfl rfl (by decide)

/-- Claim C10 (implicit): `verifyChangePassword` gates the supplied new
password only through the credential policy; it succeeds and stores the
hash of that password even when the password contains the account's email
local-part and even when it verifies as equal to the current stored
password, whereas `changePassword` rejects the very same password at its
contains-email gate. -/
theorem C10_verifyChangePassword_skips_contextual_checks
    (hashF : List Char → List Char) (verifyF : List Char → List Char → Bool)
    (genMfa : List Char) (now : Nat) (u : UserAcc)
    (code newPw currentPw : List Char)
    (hcode : u.mfaCode = some code)
    (hexp : isTokenExpired u.mfaCodeExp now = false)
    (hval : (validate newPw).isValid = true)
    (hcontains : isPasswordContainsEmail newPw u.email = true)
    (_hsame : verifyF newPw u.password = true)
    (hcur : verifyF currentPw u.password = true) :
    (verifyChangePassword hashF now u code newPw).2 = .ok msgPasswordChanged ∧
    (verifyChangePassword hashF now u code newPw).1.password = hashF newPw ∧
    (changePassword verifyF genMfa now u currentPw newPw).2 =
      .error errNewPwContainsEmail := by
  have hrun : verifyChangePassword hashF now u code newPw =
      (dbUpdatePassword hashF u newPw, .ok msgPasswordChanged) := by
    simp [verifyChangePassword, hcode, hexp, hval]
  refine ⟨by rw [hrun], by rw [hrun]; rfl, ?_⟩
  simp [changePassword, hcur, hval, hcontains]

/-- Witness for C10: a password equal to the current one and containing the
email local-part passes `verifyChangePassword` (and is stored), though
`changePassword` rejects it. -/
theorem C10_witness :
    (verifyChangePassword (fun pw => pw) 100 { baseUser with
        email := "bob@example.com".toList,
        password := "Bob!k9Qw2Rt7%m".toList,
        mfaCode := some "111222".toList,
        mfaCodeExp := some 10000 }
      "111222".toList "Bob!k9Qw2Rt7%m".toList).2 = .ok msgPasswordChanged ∧
    (verifyChangePassword (fun pw => pw) 100 { baseUser with
        email := "bob@example.com".toList,
        password := "Bob!k9Qw2Rt7%m".toList,
        mfaCode := some "111222".toList,
        mfaCodeExp := some 10000 }
      "111222".toList "Bob!k9Qw2Rt7%m".toList).1.password =
      (fun pw => pw) "Bob!k9Qw2Rt7%m".toList ∧
    (changePassword (fun pw h => pw == h) [] 100 { baseUser with
        email := "bob@example.com".toList,
        password := "Bob!k9Qw2Rt7%m".toList,
        mfaCode := some "111222".toList,
        mfaCodeExp := some 10000 }
      "Bob!k9Qw2Rt7%m".toList "Bob!k9Qw2Rt7%m".toList).2 =
      .error errNewPwContainsEmail :=
  C10_verifyChangePassword_skips_contextual_checks (fun pw => pw)
    (fun pw h => pw == h) [] 100
    { baseUser with
      email := "bob@example.com".toList,
      password := "Bob!k9Qw2Rt7%m".toList,
      mfaCode := some "111222".toList,
      mfaCodeExp := some 10000 }
    "111222".toList "Bob!k9Qw2Rt7%m".toList "Bob!k9Qw2Rt7%m".toList
    rfl (by decide) (by decide) (by decide) (by decide) (by decide)

end TravelAuth
